import Mathlib

/-!
A verification development for `releng/generate-tests/main.go`: a shallow
embedding of the job-generation pipeline (job-name parsing, axis resolution,
argument layering and overrides, timeout derivation, dashboard assignment and
the main accumulation loop), together with theorems settling the behavioural
claims made about it.

Modelling conventions, used consistently below:
  * Go strings are modelled as Lean `String` and string functions are defined
    by structural recursion on `String.data` (a `List Char`).  Go slices a
    string by bytes; for the ASCII strings this program manipulates, byte
    positions and character positions coincide.
  * `log.Fatal*` (which terminates the process) is modelled as
    `Except.error (Failure.fatal msg)`; a Go runtime panic (out-of-range
    slice) as `Except.error (Failure.panicked msg)`.
  * Go's `int` is a signed 64-bit machine integer.  It is modelled as `Int`;
    `strconv.Atoi` checks the 64-bit range and the one arithmetic operation
    performed on a parsed value (`timeout+20`) is wrapped with `wrap64`.
  * Go maps are modelled as association lists; a lookup of an absent key
    yields the zero value, as in Go.  Map assignment prepends the binding
    (reads see the most recent one, matching Go map semantics for reads).
-/

namespace GenerateTests

/-! ## Go string primitives -/

/-- The characters `strings.TrimSpace` strips (ASCII whitespace; the extra
Unicode space classes do not occur in this program's data). -/
def goIsSpace (c : Char) : Bool :=
  c = ' ' || c = '\t' || c = '\n' || c = '\r' || c = '\x0b' || c = '\x0c'

/-- Go `strings.TrimSpace`. -/
def goTrimSpace (s : String) : String :=
  ⟨((s.data.dropWhile goIsSpace).reverse.dropWhile goIsSpace).reverse⟩

/-- Whether `p` is a prefix of `s` (list form). -/
def chHasPrefix : List Char → List Char → Bool
  | _, [] => true
  | [], _ :: _ => false
  | c :: cs, p :: ps => c = p && chHasPrefix cs ps

/-- Go `strings.HasPrefix`. -/
def goHasPrefix (s p : String) : Bool :=
  chHasPrefix s.data p.data

/-- Whether `pat` occurs as a contiguous sublist of `s`. -/
def chContains (pat : List Char) : List Char → Bool
  | [] => chHasPrefix [] pat
  | c :: rest => chHasPrefix (c :: rest) pat || chContains pat rest

/-- Go `strings.Contains`. -/
def goContains (s pat : String) : Bool :=
  chContains pat.data s.data

/-- Split on each occurrence of the (single-character) separator; Go
`strings.Split(s, sep)` for a one-character `sep`.  Always returns at least
one piece, and empty pieces are kept. -/
def chSplit (sep : Char) : List Char → List Char → List (List Char)
  | acc, [] => [acc.reverse]
  | acc, c :: cs =>
    if c = sep then acc.reverse :: chSplit sep [] cs else chSplit sep (c :: acc) cs

/-- Go `strings.Split` with a one-character separator. -/
def goSplit (s : String) (sep : Char) : List String :=
  (chSplit sep [] s.data).map (fun l => ⟨l⟩)

/-- Go `strings.SplitN(s, sep, 2)`: one piece when the separator is absent,
otherwise the part before its first occurrence and everything after it. -/
def goSplitN2 (s : String) (sep : Char) : List String :=
  let before := s.data.takeWhile (fun c => !(c = sep))
  let rest := s.data.drop before.length
  match rest with
  | [] => [⟨before⟩]
  | _ :: tl => [⟨before⟩, ⟨tl⟩]

/-- Go `strings.Join`. -/
def goJoin (sep : String) : List String → String
  | [] => ""
  | x :: xs => xs.foldl (fun acc y => acc ++ sep ++ y) x

/-- Replace every (non-overlapping, leftmost-first) occurrence of `pat` by
`rep`.  Structural recursion on a fuel argument (each step consumes at least
one character, so `s.length` fuel always suffices); the zero-fuel arm is
never reached. -/
def chReplaceAllAux (pat rep : List Char) : Nat → List Char → List Char
  | 0, s => s
  | fuel + 1, s =>
    match s with
    | [] => []
    | c :: cs =>
      if pat ≠ [] && chHasPrefix (c :: cs) pat then
        rep ++ chReplaceAllAux pat rep fuel ((c :: cs).drop pat.length)
      else
        c :: chReplaceAllAux pat rep fuel cs

/-- Replace every occurrence of `pat` by `rep` (list form). -/
def chReplaceAll (pat rep s : List Char) : List Char :=
  chReplaceAllAux pat rep s.length s

/-- Go `strings.Replace(s, pat, rep, -1)` (the pattern used here is the
non-empty literal token, so the empty-pattern case of Go's `Replace` does not
arise). -/
def goReplaceAll (s pat rep : String) : String :=
  ⟨chReplaceAll pat.data rep.data s.data⟩

/-- The first `n` characters; Go `s[:n]` for ASCII `s` with `n ≤ len(s)`. -/
def goTakeStr (s : String) (n : Nat) : String :=
  ⟨s.data.take n⟩

/-- Go `s[n:]` for ASCII `s`: `none` models the runtime panic raised when
`n > len(s)`. -/
def goDropStr (s : String) (n : Nat) : Option String :=
  if n ≤ s.data.length then some ⟨s.data.drop n⟩ else none

/-! ## SHA-1 (Go `crypto/sha1`), over byte lists -/

/-- UTF-8 encoding of one character, as byte values. -/
def utf8EncodeChar (c : Char) : List Nat :=
  let n := c.toNat
  if n < 128 then [n]
  else if n < 2048 then [192 + n / 64, 128 + n % 64]
  else if n < 65536 then [224 + n / 4096, 128 + n / 64 % 64, 128 + n % 64]
  else [240 + n / 262144, 128 + n / 4096 % 64, 128 + n / 64 % 64, 128 + n % 64]

/-- The bytes of a string, as Go's `[]byte(s)` produces them. -/
def strBytes (s : String) : List Nat :=
  s.data.flatMap utf8EncodeChar

/-- Truncation to 32 bits. -/
def w32 (n : Nat) : Nat := n % 4294967296

/-- Left rotation of a 32-bit word by `k` bits. -/
def rotl32 (k n : Nat) : Nat := w32 (n * 2 ^ k) + n / 2 ^ (32 - k)

/-- The SHA-1 round function. -/
def sha1F (t b c d : Nat) : Nat :=
  if t < 20 then (b &&& c) ||| ((b ^^^ 4294967295) &&& d)
  else if t < 40 then b ^^^ c ^^^ d
  else if t < 60 then (b &&& c) ||| (b &&& d) ||| (c &&& d)
  else b ^^^ c ^^^ d

/-- The SHA-1 round constants. -/
def sha1K (t : Nat) : Nat :=
  if t < 20 then 1518500249
  else if t < 40 then 1859775393
  else if t < 60 then 2400959708
  else 3395469782

/-- Big-endian grouping of bytes into 32-bit words. -/
def bytesToWords : List Nat → List Nat
  | b0 :: b1 :: b2 :: b3 :: rest =>
    (b0 * 16777216 + b1 * 65536 + b2 * 256 + b3) :: bytesToWords rest
  | _ => []

/-- Extend the (reversed) 16-word schedule by `k` further words; the head of
the accumulator is the most recently produced word. -/
def sha1Extend : Nat → List Nat → List Nat
  | 0, wrev => wrev
  | k + 1, wrev =>
    let x := rotl32 1 (wrev.getD 2 0 ^^^ wrev.getD 7 0 ^^^ wrev.getD 13 0 ^^^ wrev.getD 15 0)
    sha1Extend k (x :: wrev)

/-- The 80 compression rounds, consuming the message schedule. -/
def sha1Rounds : Nat → List Nat → Nat × Nat × Nat × Nat × Nat → Nat × Nat × Nat × Nat × Nat
  | _, [], st => st
  | t, wt :: rest, (a, b, c, d, e) =>
    let temp := w32 (rotl32 5 a + sha1F t b c d + e + sha1K t + wt)
    sha1Rounds (t + 1) rest (temp, a, rotl32 30 b, c, d)

/-- Process the padded message, 64-byte block by block.  Structural
recursion on a fuel argument (each step consumes a block, so the byte count
is always enough fuel). -/
def sha1BlocksAux : Nat → List Nat → Nat × Nat × Nat × Nat × Nat → Nat × Nat × Nat × Nat × Nat
  | 0, _, h => h
  | fuel + 1, bytes, (h0, h1, h2, h3, h4) =>
    match bytes with
    | [] => (h0, h1, h2, h3, h4)
    | b :: bs =>
      let block := (b :: bs).take 64
      let ws := (sha1Extend 64 (bytesToWords block).reverse).reverse
      let (a, b', c, d, e) := sha1Rounds 0 ws (h0, h1, h2, h3, h4)
      sha1BlocksAux fuel ((b :: bs).drop 64)
        (w32 (h0 + a), w32 (h1 + b'), w32 (h2 + c), w32 (h3 + d), w32 (h4 + e))

/-- Process the padded message from the initial chaining state. -/
def sha1Blocks (bytes : List Nat) (h : Nat × Nat × Nat × Nat × Nat) :
    Nat × Nat × Nat × Nat × Nat :=
  sha1BlocksAux bytes.length bytes h

/-- SHA-1 padding: `0x80`, zeros to 56 mod 64, then the bit length in 8
big-endian bytes. -/
def sha1Pad (msg : List Nat) : List Nat :=
  let len := msg.length
  let zeros := (119 - len % 64) % 64
  let bits := len * 8
  msg ++ [128] ++ List.replicate zeros 0 ++
    [bits / 2 ^ 56 % 256, bits / 2 ^ 48 % 256, bits / 2 ^ 40 % 256, bits / 2 ^ 32 % 256,
     bits / 2 ^ 24 % 256, bits / 2 ^ 16 % 256, bits / 2 ^ 8 % 256, bits % 256]

/-- A 32-bit word as 4 big-endian bytes. -/
def wordBytes (w : Nat) : List Nat :=
  [w / 16777216 % 256, w / 65536 % 256, w / 256 % 256, w % 256]

/-- The 20-byte SHA-1 digest of a byte list. -/
def sha1Bytes (msg : List Nat) : List Nat :=
  let st := sha1Blocks (sha1Pad msg) (1732584193, 4023233417, 2562383102, 271733878, 3285377520)
  wordBytes st.1 ++ wordBytes st.2.1 ++ wordBytes st.2.2.1 ++ wordBytes st.2.2.2.1 ++ wordBytes st.2.2.2.2

/-- A nibble as a lowercase hexadecimal character. -/
def hexDigit (n : Nat) : Char :=
  if n < 10 then Char.ofNat (48 + n) else Char.ofNat (87 + n)

/-- `getSHA1Hash` of the source: the hex-encoded SHA-1 digest of `data`. -/
def getSHA1Hash (data : String) : String :=
  ⟨(sha1Bytes (strBytes data)).flatMap (fun b => [hexDigit (b / 16), hexDigit (b % 16)])⟩

/-! ## Integer parsing and formatting (strconv.Atoi, fmt "%v", 64-bit wrap) -/

/-- The value of a decimal digit character. -/
def digitVal? (c : Char) : Option Nat :=
  if '0' ≤ c ∧ c ≤ '9' then some (c.toNat - 48) else none

/-- The value of a non-empty all-digit character list. -/
def digitsVal? (cs : List Char) : Option Nat :=
  match cs with
  | [] => none
  | _ :: _ =>
    cs.foldl
      (fun acc c =>
        match acc, digitVal? c with
        | some a, some d => some (a * 10 + d)
        | _, _ => none)
      (some 0)

/-- Go `strconv.Atoi` (= `ParseInt(s, 10, 64)` on a 64-bit platform): an
optional sign, then decimal digits; `none` models a non-nil error, which
covers both a syntax error and a value outside the signed 64-bit range. -/
def goAtoi (s : String) : Option Int :=
  match s.data with
  | [] => none
  | '+' :: rest =>
    (digitsVal? rest).bind (fun n => if n ≤ 9223372036854775807 then some (n : Int) else none)
  | '-' :: rest =>
    (digitsVal? rest).bind (fun n => if n ≤ 9223372036854775808 then some (-(n : Int)) else none)
  | cs =>
    (digitsVal? cs).bind (fun n => if n ≤ 9223372036854775807 then some (n : Int) else none)

/-- The decimal digits of a natural number (fuel-structured; `n` itself is
always enough fuel since a number has no more digits than its value). -/
def natDecReprAux : Nat → Nat → List Char
  | 0, n => [Char.ofNat (48 + n % 10)]
  | fuel + 1, n =>
    if n < 10 then [Char.ofNat (48 + n)]
    else natDecReprAux fuel (n / 10) ++ [Char.ofNat (48 + n % 10)]

/-- The decimal digits of a natural number. -/
def natDecRepr (n : Nat) : List Char :=
  natDecReprAux n n

/-- Decimal rendering of an integer: `strconv.Itoa` / `fmt.Sprintf("%v", i)`. -/
def intDecRepr (i : Int) : String :=
  if i < 0 then ⟨'-' :: natDecRepr i.natAbs⟩ else ⟨natDecRepr i.toNat⟩

/-- Wrap-around of signed 64-bit integer arithmetic. -/
def wrap64 (i : Int) : Int :=
  (i + 9223372036854775808) % 18446744073709551616 - 9223372036854775808

/-- Propositional equality on `Except` results is decidable (used to state
concrete evaluations of the pipeline). -/
instance exceptDecEq {eps alpha : Type} [DecidableEq eps] [DecidableEq alpha] :
    DecidableEq (Except eps alpha) := fun a b =>
  match a, b with
  | .error e1, .error e2 =>
    if h : e1 = e2 then isTrue (by rw [h]) else isFalse (fun hh => by cases hh; exact h rfl)
  | .error _, .ok _ => isFalse (fun hh => by cases hh)
  | .ok _, .error _ => isFalse (fun hh => by cases hh)
  | .ok a1, .ok a2 =>
    if h : a1 = a2 then isTrue (by rw [h]) else isFalse (fun hh => by cases hh; exact h rfl)

/-! ## The data model (the structs of main.go) -/

/-- How an aborted run is modelled: `log.Fatal*` as `fatal`, a Go runtime
panic as `panicked`. -/
inductive Failure where
  | fatal (msg : String)
  | panicked (msg : String)
deriving DecidableEq, Repr

structure ComputeResources where
  CPU : String
  Memory : String
deriving DecidableEq, Repr

structure Resources where
  Requests : ComputeResources
  Limits : ComputeResources
deriving DecidableEq, Repr

structure NodeK8SVersion where
  Args : List String
  ProwImage : String
deriving DecidableEq, Repr

structure Job where
  Scenario : String
  Interval : String
  Cron : String
  SigOwners : List String
  ReleaseBlocking : Bool
  ReleaseInforming : Bool
  Cluster : String
  TestgridNumFailuresToAlert : Int
  Args : List String
  Resources : Resources
deriving DecidableEq, Repr

structure Common where
  Args : List String
  TestgridPrefix : String
deriving DecidableEq, Repr

structure CloudProvider where
  Args : List String
deriving DecidableEq, Repr

structure Image where
  Args : List String
  TestgridPrefix : String
deriving DecidableEq, Repr

structure K8SVersion where
  Args : List String
  Version : String
deriving DecidableEq, Repr

structure TestSuite where
  Args : List String
  Resources : Resources
  Cluster : String
deriving DecidableEq, Repr

/-- The configuration document.  Go maps are association lists here; lookup
of an absent key yields the zero value (`lookupD`). -/
structure ConfigFile where
  Jobs : List (String × GenerateTests.Job)
  CloudProviders : List (String × GenerateTests.CloudProvider)
  Common : GenerateTests.Common
  Images : List (String × GenerateTests.Image)
  K8SVersions : List (String × GenerateTests.K8SVersion)
  TestSuites : List (String × GenerateTests.TestSuite)
  NodeTestSuites : List (String × GenerateTests.TestSuite)
  NodeK8SVersions : List (String × GenerateTests.NodeK8SVersion)
  NodeImages : List (String × GenerateTests.Image)
  NodeCommon : GenerateTests.Common
deriving DecidableEq, Repr

structure E2ETest where
  EnvFilename : String
  JobName : String
  fields : List String
  Job : GenerateTests.Job
  Common : GenerateTests.Common
  CloudProvider : GenerateTests.CloudProvider
  Image : GenerateTests.Image
  K8SVersion : GenerateTests.K8SVersion
  TestSuite : GenerateTests.TestSuite
deriving DecidableEq, Repr

structure E2ENodeTest where
  JobName : String
  fields : List String
  Job : GenerateTests.Job
  Common : GenerateTests.Common
  Image : GenerateTests.Image
  K8SVersion : GenerateTests.NodeK8SVersion
  TestSuite : GenerateTests.TestSuite
deriving DecidableEq, Repr

structure DecorationConfig where
  Timeout : String
deriving DecidableEq, Repr

structure Container where
  Command : List String
  Args : List String
  Env : String
  Image : String
  Resources : Resources
deriving DecidableEq, Repr

structure Spec where
  Containers : List Container
deriving DecidableEq, Repr

structure Periodic where
  Tags : List String
  Interval : String
  Cron : String
  Labels : List (String × String)
  Decorate : Bool
  DecorationConfig : GenerateTests.DecorationConfig
  Name : String
  Spec : GenerateTests.Spec
  Cluster : String
  Annotations : List (String × String)
deriving DecidableEq, Repr

structure ProwConfigFile where
  Periodics : List Periodic
deriving DecidableEq, Repr

set_option linter.dupNamespace false in
structure ConfigurationValue where
  ConfigurationValue : String
deriving DecidableEq, Repr

structure TestGroup where
  Name : String
  GCSPrefix : String
  ColumnHeader : List ConfigurationValue
deriving DecidableEq, Repr

structure TestgridConfig where
  TestGroups : List TestGroup
deriving DecidableEq, Repr

/-! Zero values (what a Go map lookup of an absent key yields). -/

def ComputeResources.zero : ComputeResources := { CPU := "", Memory := "" }

def Resources.zero : Resources := { Requests := ComputeResources.zero, Limits := ComputeResources.zero }

def Job.zero : Job :=
  { Scenario := "", Interval := "", Cron := "", SigOwners := [], ReleaseBlocking := false,
    ReleaseInforming := false, Cluster := "", TestgridNumFailuresToAlert := 0, Args := [],
    Resources := Resources.zero }

def Common.zero : Common := { Args := [], TestgridPrefix := "" }

def CloudProvider.zero : CloudProvider := { Args := [] }

def Image.zero : Image := { Args := [], TestgridPrefix := "" }

def K8SVersion.zero : K8SVersion := { Args := [], Version := "" }

def TestSuite.zero : TestSuite := { Args := [], Resources := Resources.zero, Cluster := "" }

def NodeK8SVersion.zero : NodeK8SVersion := { Args := [], ProwImage := "" }

def TestGroup.zero : TestGroup := { Name := "", GCSPrefix := "", ColumnHeader := [] }

def ConfigFile.zero : ConfigFile :=
  { Jobs := [], CloudProviders := [], Common := Common.zero, Images := [], K8SVersions := [],
    TestSuites := [], NodeTestSuites := [], NodeK8SVersions := [], NodeImages := [],
    NodeCommon := Common.zero }

/-- Go map read: the stored value, or the zero value `d` when absent. -/
def lookupD {α : Type} (m : List (String × α)) (k : String) (d : α) : α :=
  match m.find? (fun p => p.1 == k) with
  | some p => p.2
  | none => d

/-- Go map write.  Reads (`mapGet`) see the most recent binding, so
prepending models assignment faithfully for every read. -/
def mapSet (m : List (String × String)) (k v : String) : List (String × String) :=
  (k, v) :: m

/-- Go map read on a string-to-string map, as an `Option`. -/
def mapGet (m : List (String × String)) (k : String) : Option String :=
  (m.find? (fun p => p.1 == k)).map (fun p => p.2)

/-! ## The inverted emptiness predicates (main.go lines 608-614 and 672-674).
These return `true` precisely on NON-empty values; they are transcribed
from the source as written, since claim C1 turns on this inversion. -/

def ComputeResources.isEmpty (cr : ComputeResources) : Bool :=
  cr.CPU != "" || cr.Memory != ""

def Resources.isEmpty (r : Resources) : Bool :=
  !r.Limits.isEmpty || !r.Requests.isEmpty

def TestGroup.isEmpty (tg : TestGroup) : Bool :=
  tg.Name != "" || tg.GCSPrefix != "" || tg.ColumnHeader.length != 0

/-! ## Hash substitution and the override layer -/

/-- `substitute`: replace each occurrence of the placeholder token by the
first 10 hex characters of the SHA-1 digest of the job name. -/
def substitute (jobName : String) (lines : List String) : List String :=
  lines.map (fun line => goReplaceAll line "${job_name_hash}" (goTakeStr (getSHA1Hash jobName) 10))

/-- `getArgs` of the source. -/
def getArgs (jobName : String) (args : List String) : List String :=
  substitute jobName args

/-- The match test of `applyJobOverrides` (main.go line 171): the trimmed
base entry starts with `name=` or equals `name`. -/
def matchesName (name val : String) : Bool :=
  goHasPrefix (goTrimSpace val) (name ++ "=") || goTrimSpace val == name

/-- The inner search of `applyJobOverrides` (lines 168-175): the first entry
of the ORIGINAL base list that matches, or `""` when none does (`envOrArg`
keeps its zero value). -/
def findOverrideMatch (name : String) : List String → String
  | [] => ""
  | v :: vs => if matchesName name v then v else findOverrideMatch name vs

/-- The removal loop of `applyJobOverrides` (lines 177-182): drop the first
element equal to `x`. -/
def removeFirstEq (x : String) : List String → List String
  | [] => []
  | v :: vs => if v = x then vs else v :: removeFirstEq x vs

/-- `applyJobOverrides` (main.go lines 164-187).  Note: the match is searched
in the ORIGINAL base list (`originalEnvsOrArgs`), the removal happens in the
current list, and removal is skipped when the matched value is `""` (Go's
found-flag is the zero value of `envOrArg`). -/
def applyJobOverrides (envsOrArgs jobEnvsOrArgs : List String) : List String :=
  jobEnvsOrArgs.foldl
    (fun cur jobEnvOrArg =>
      let name := (goSplit jobEnvOrArg '=').headD ""
      let envOrArg := findOverrideMatch name envsOrArgs
      (if envOrArg ≠ "" then removeFirstEq envOrArg cur else cur) ++ [jobEnvOrArg])
    envsOrArgs

/-! ## Construction of the typed tests (newE2ETest, newE2ENodeTest) -/

/-- `newE2ETest` (main.go lines 207-224).  `fields[5][3:]` panics when the
k8s-version token is shorter than 3 characters.  `filepath.Join` is modelled
as separator concatenation (path cleaning is irrelevant here). -/
def newE2ETest (outputDir jobName : String) (job : Job) (config : ConfigFile) :
    Except Failure E2ETest :=
  let fields := goSplit jobName '-'
  if fields.length ≠ 7 then .error (.fatal ("Expected 7 fields in job name " ++ jobName))
  else
    match goDropStr (fields.getD 5 "") 3 with
    | none => .error (.panicked "slice bounds out of range")
    | some versionKey =>
      .ok
        { EnvFilename := outputDir ++ "/" ++ jobName ++ ".env"
          JobName := jobName
          Job := job
          fields := fields
          Common := config.Common
          CloudProvider := lookupD config.CloudProviders (fields.getD 3 "") CloudProvider.zero
          Image := lookupD config.Images (fields.getD 4 "") Image.zero
          K8SVersion := lookupD config.K8SVersions versionKey K8SVersion.zero
          TestSuite := lookupD config.TestSuites (fields.getD 6 "") TestSuite.zero }

/-- `newE2ENodeTest` (main.go lines 375-389); `fields[4][3:]` panics when the
k8s-version token is shorter than 3 characters. -/
def newE2ENodeTest (jobName : String) (job : Job) (config : ConfigFile) :
    Except Failure E2ENodeTest :=
  let fields := goSplit jobName '-'
  if fields.length ≠ 6 then .error (.fatal ("Expected 6 fields in job name " ++ jobName))
  else
    match goDropStr (fields.getD 4 "") 3 with
    | none => .error (.panicked "slice bounds out of range")
    | some versionKey =>
      .ok
        { JobName := jobName
          Job := job
          fields := fields
          Common := config.Common
          Image := lookupD config.Images (fields.getD 3 "") Image.zero
          K8SVersion := lookupD config.NodeK8SVersions versionKey NodeK8SVersion.zero
          TestSuite := lookupD config.TestSuites (fields.getD 5 "") TestSuite.zero }

/-! ## Job definition, test-group record, dashboards -/

/-- `E2ETest.getJobDefinition` (main.go lines 272-283); the `UNKOWN`
spelling is the source's. -/
def E2ETest.getJobDefinition (et : E2ETest) (args : List String) : GenerateTests.Job :=
  let rSigOwner := if et.Job.SigOwners.length = 0 then ["UNKOWN"] else et.Job.SigOwners
  { Job.zero with Scenario := "kubernetes_e2e", Args := args, SigOwners := rSigOwner }

/-- `E2ENodeTest.getJobDefinition` (main.go lines 391-402). -/
def E2ENodeTest.getJobDefinition (ent : E2ENodeTest) (args : List String) : GenerateTests.Job :=
  let rSigOwner := if ent.Job.SigOwners.length = 0 then ["UNKOWN"] else ent.Job.SigOwners
  { Job.zero with Scenario := "kubernetes_e2e", Args := args, SigOwners := rSigOwner }

/-- The constant `GCSLOGPREFIX` of the source. -/
def gcsLogPrefixStr : String := "kubernetes-jenkins/logs/"

/-- `E2ETest.getTestGridConfig` (main.go lines 285-304). -/
def E2ETest.getTestGridConfig (et : E2ETest) : TestGroup :=
  { Name := et.JobName
    GCSPrefix := gcsLogPrefixStr ++ et.JobName
    ColumnHeader := [⟨"node_os_image"⟩, ⟨"master_os_image"⟩, ⟨"Commit"⟩, ⟨"infra-commit"⟩] }

/-- `E2ETest.InitializeDashBoardsWithReleaseBlockingInfo` (main.go lines
260-270). -/
def E2ETest.InitializeDashBoardsWithReleaseBlockingInfo (et : E2ETest) (version : String) :
    List String :=
  let dashboard :=
    if et.Job.ReleaseBlocking then "sig-release-" ++ version ++ "-blocking"
    else if et.Job.ReleaseInforming then "sig-release-" ++ version ++ "-informing"
    else "sig-release-generated"
  [dashboard]

/-! ## The Periodic record (getProwConfig of both kinds) -/

/-- The Periodic literal both `getProwConfig`s start from (main.go lines
307-336 and 405-434; the two literals in the source are identical). -/
def baseProwConfig (name : String) : Periodic :=
  { Name := name
    Tags := ["generated"]
    Interval := ""
    Cron := ""
    Labels := [("preset-service-account", "true"), ("preset-k8s-ssh", "true")]
    Decorate := true
    DecorationConfig := { Timeout := "180m" }
    Spec :=
      { Containers :=
          [{ Command := []
             Args := []
             Env := ""
             Image := "gcr.io/k8s-staging-test-infra/kubekins-e2e:v20231206-f7b83ffbe6-master"
             Resources :=
               { Requests := { CPU := "1000m", Memory := "3Gi" }
                 Limits := { CPU := "1000m", Memory := "3Gi" } } }] }
    Cluster := ""
    Annotations := [] }

/-- Update of `Spec.Containers[0]`; the container list built by
`baseProwConfig` always has exactly one element (Go would panic on an empty
list, which cannot arise here). -/
def Periodic.updateContainer0 (p : Periodic) (f : Container → Container) : Periodic :=
  { p with
    Spec :=
      { Containers :=
          match p.Spec.Containers with
          | [] => []
          | c :: cs => f c :: cs } }

/-- The cluster/resources overrides (main.go lines 337-346 and 435-444): the
test suite's value wins, else the job's.  Note `Resources.isEmpty` is the
inverted predicate transcribed from the source. -/
def withClusterAndResources (p : Periodic) (testSuite : TestSuite) (job : Job) : Periodic :=
  let p :=
    if testSuite.Cluster ≠ "" then { p with Cluster := testSuite.Cluster }
    else if job.Cluster ≠ "" then { p with Cluster := job.Cluster }
    else p
  if !testSuite.Resources.isEmpty then
    p.updateContainer0 (fun c => { c with Resources := testSuite.Resources })
  else if !job.Resources.isEmpty then
    p.updateContainer0 (fun c => { c with Resources := job.Resources })
  else p

/-- The schedule step (main.go lines 347-356 and 445-454): exactly one of
Interval/Cron is copied; neither set is fatal. -/
def withSchedule (p : Periodic) (job : Job) : Except Failure Periodic :=
  if job.Interval ≠ "" then .ok { p with Cron := "", Interval := job.Interval }
  else if job.Cron ≠ "" then .ok { p with Interval := "", Cron := job.Cron }
  else .error (.fatal "No interval or cron definition found")

/-- The timeout scan (main.go lines 357-369 and 455-467): the first
test-suite argument with prefix `--timeout=` has `arg[10:len(arg)-1]` parsed
by `strconv.Atoi`; a parse failure is fatal, and the slice itself panics for
the 10-character argument `"--timeout="`.  With no such argument the Go
variable `timeout` keeps its zero value. -/
def scanTimeout (jobName : String) : List String → Except Failure Int
  | [] => .ok 0
  | arg :: rest =>
    if goHasPrefix arg "--timeout=" then
      if arg.data.length < 11 then .error (.panicked "slice bounds out of range")
      else
        match goAtoi ⟨(arg.data.drop 10).dropLast⟩ with
        | none => .error (.fatal ("error, parsing timeout of job: " ++ jobName))
        | some t => .ok t
    else scanTimeout jobName rest

/-- The timeout write (main.go lines 370-371 and 468-469): unconditionally
overwrites the decoration timeout with `fmt.Sprintf("%vm", timeout+20)`; the
addition is 64-bit machine addition. -/
def withTimeout (p : Periodic) (jobName : String) (tsArgs : List String) :
    Except Failure Periodic :=
  match scanTimeout jobName tsArgs with
  | .error e => .error e
  | .ok timeout =>
    .ok { p with DecorationConfig := { Timeout := intDecRepr (wrap64 (timeout + 20)) ++ "m" } }

/-- `E2ETest.getProwConfig` (main.go lines 306-373). -/
def E2ETest.getProwConfig (et : E2ETest) (testSuite : GenerateTests.TestSuite) : Except Failure Periodic :=
  match withSchedule (withClusterAndResources (baseProwConfig et.JobName) testSuite et.Job) et.Job with
  | .error e => .error e
  | .ok p => withTimeout p et.JobName testSuite.Args

/-- The e2enode-only tail of `getProwConfig` (main.go lines 470-478): the
node k8s-version args and `--root=/go/src` are appended to the container args
and a non-empty `ProwImage` replaces the container image. -/
def nodeFinalizeProw (p : Periodic) (k8sVersion : NodeK8SVersion) : Periodic :=
  let p := p.updateContainer0 (fun c => { c with Args := c.Args ++ k8sVersion.Args ++ ["--root=/go/src"] })
  if k8sVersion.ProwImage ≠ "" then
    p.updateContainer0 (fun c => { c with Image := k8sVersion.ProwImage })
  else p

/-- `E2ENodeTest.getProwConfig` (main.go lines 404-480): as the e2e variant,
then the node-only tail. -/
def E2ENodeTest.getProwConfig (ent : E2ENodeTest) (testSuite : GenerateTests.TestSuite)
    (k8sVersion : NodeK8SVersion) : Except Failure Periodic :=
  match withSchedule (withClusterAndResources (baseProwConfig ent.JobName) testSuite ent.Job) ent.Job with
  | .error e => .error e
  | .ok p =>
    match withTimeout p ent.JobName testSuite.Args with
    | .error e => .error e
    | .ok p => .ok (nodeFinalizeProw p k8sVersion)

/-! ## generate (both kinds) -/

/-- The base argument layering of `E2ETest.generate` (main.go lines 235-240):
Common, CloudProvider, Image, K8SVersion, TestSuite, each hash-substituted. -/
def baseE2EArgs (et : E2ETest) : List String :=
  getArgs et.JobName et.Common.Args ++ getArgs et.JobName et.CloudProvider.Args ++
    getArgs et.JobName et.Image.Args ++ getArgs et.JobName et.K8SVersion.Args ++
      getArgs et.JobName et.TestSuite.Args

/-- The annotation block of `E2ETest.generate` (main.go lines 245-256). -/
def e2eAnnotate (et : E2ETest) (p : Periodic) : Periodic :=
  let tabName :=
    et.fields.getD 3 "" ++ "-" ++ et.fields.getD 4 "" ++ "-" ++ et.fields.getD 5 "" ++ "-" ++
      et.fields.getD 6 ""
  let p := { p with Annotations := mapSet p.Annotations "testgrid-tab-name" tabName }
  let dashboards := et.InitializeDashBoardsWithReleaseBlockingInfo et.K8SVersion.Version
  let dashboards :=
    if et.Image.TestgridPrefix ≠ "" then
      dashboards ++ [et.Image.TestgridPrefix ++ "-" ++ et.fields.getD 4 "" ++ "-" ++ et.fields.getD 5 ""]
    else dashboards
  let p := { p with Annotations := mapSet p.Annotations "testgrid-dashboards" (goJoin ", " dashboards) }
  { p with
    Annotations :=
      mapSet p.Annotations "testgrid-num-failures-to-alert"
        (intDecRepr et.Job.TestgridNumFailuresToAlert) }

/-- `E2ETest.generate` (main.go lines 226-258). -/
def E2ETest.generate (et : E2ETest) : Except Failure (GenerateTests.Job × Periodic × TestGroup) :=
  if et.fields.length ≠ 7 then .error (.fatal ("Expected 7 fields in job name " ++ et.JobName))
  else
    match et.getProwConfig et.TestSuite with
    | .error e => .error e
    | .ok prowConfig =>
      .ok (et.getJobDefinition (baseE2EArgs et), e2eAnnotate et prowConfig, et.getTestGridConfig)

/-- The base argument layering of `E2ENodeTest.generate` (main.go lines
491-495): Common, Image, TestSuite; the K8SVersion layer is commented out in
the source (line 494). -/
def baseNodeArgs (ent : E2ENodeTest) : List String :=
  getArgs ent.JobName ent.Common.Args ++ getArgs ent.JobName ent.Image.Args ++
    getArgs ent.JobName ent.TestSuite.Args

/-- The values the node-args pass pulls out (main.go lines 503-509): for each
argument CONTAINING `--node-args=`, the portion after the argument's first
`=` (`strings.SplitN(arg, "=", 2)[1]`), in encounter order. -/
def nodeArgValues : List String → List String
  | [] => []
  | arg :: rest =>
    if goContains arg "--node-args=" then (goSplitN2 arg '=').getD 1 "" :: nodeArgValues rest
    else nodeArgValues rest

/-- The arguments the node-args pass keeps (same loop): those not containing
`--node-args=`, in order. -/
def nodeKeptArgs : List String → List String
  | [] => []
  | arg :: rest =>
    if goContains arg "--node-args=" then nodeKeptArgs rest else arg :: nodeKeptArgs rest

/-- The node-args coalescing pass of `E2ENodeTest.generate` (main.go lines
500-516): pulled values are appended to the literal `--node-args=` with a
trailing space each, and the result is trimmed and appended. -/
def coalesceNodeArgs (args : List String) : List String :=
  let nodeArgs := nodeArgValues args
  let jobArgs := nodeKeptArgs args
  if nodeArgs.length ≠ 0 then
    jobArgs ++ [goTrimSpace (nodeArgs.foldl (fun acc arg => acc ++ arg ++ " ") "--node-args=")]
  else jobArgs

/-- The annotation block of `E2ENodeTest.generate` (main.go lines 518-526):
both annotations are written only when the image's testgrid prefix is
non-empty. -/
def nodeAnnotate (ent : E2ENodeTest) (p : Periodic) : Periodic :=
  if ent.Image.TestgridPrefix ≠ "" then
    let dashboard :=
      ent.Image.TestgridPrefix ++ "-" ++ ent.fields.getD 3 "" ++ "-" ++ ent.fields.getD 4 ""
    let tabName :=
      ent.fields.getD 3 "" ++ "-" ++ ent.fields.getD 4 "" ++ "-" ++ ent.fields.getD 5 ""
    let p := { p with Annotations := mapSet p.Annotations "testgrid-dashboards" dashboard }
    { p with Annotations := mapSet p.Annotations "testgrid-tab-name" tabName }
  else p

/-- `E2ENodeTest.generate` (main.go lines 482-528). -/
def E2ENodeTest.generate (ent : E2ENodeTest) : Except Failure (GenerateTests.Job × Periodic) :=
  if ent.fields.length ≠ 6 then .error (.fatal ("Expected 6 fields in job name " ++ ent.JobName))
  else
    match ent.getProwConfig ent.TestSuite ent.K8SVersion with
    | .error e => .error e
    | .ok prowConfig =>
      let jobConfig := ent.getJobDefinition (baseNodeArgs ent)
      let jobConfig := { jobConfig with Args := coalesceNodeArgs jobConfig.Args }
      .ok (jobConfig, nodeAnnotate ent prowConfig)

/-! ## Per-job dispatch and the main accumulation loop -/

/-- `forEachJob` (main.go lines 138-162): name-shape dispatch, then the
per-job overrides, container args and command.  For an e2enode job the
returned TestGroup stays the zero value. -/
def forEachJob (outputDir jobName : String) (job : Job) (config : ConfigFile) :
    Except Failure (Periodic × TestGroup) :=
  let fields := goSplit jobName '-'
  if fields.length < 3 then
    .error (.fatal ("Expected at least 3 fields in job name " ++ jobName))
  else
    let jobType := fields.getD 2 ""
    let step : Except Failure (Job × Periodic × TestGroup) :=
      if jobType = "e2e" then
        match newE2ETest outputDir jobName job config with
        | .error e => .error e
        | .ok et => et.generate
      else if jobType = "e2enode" then
        match newE2ENodeTest jobName job config with
        | .error e => .error e
        | .ok ent =>
          match ent.generate with
          | .error e => .error e
          | .ok (jc, pc) => .ok (jc, pc, TestGroup.zero)
      else .error (.fatal ("Job " ++ jobName ++ " has unexpected job type " ++ jobType))
    match step with
    | .error e => .error e
    | .ok (jobConfig, prowConfig, testgridConfig) =>
      let jobConfig :=
        { jobConfig with Args := applyJobOverrides jobConfig.Args (getArgs jobName job.Args) }
      let prowConfig := prowConfig.updateContainer0 (fun c => { c with Args := c.Args ++ jobConfig.Args })
      let file := "/workspace/scenarios/" ++ jobConfig.Scenario ++ ".py"
      let prowConfig := prowConfig.updateContainer0 (fun c => { c with Command := ["runner.sh", file] })
      .ok (prowConfig, testgridConfig)

/-- Lexicographic character-code order (Go's string order for the ASCII names
this program sorts). -/
def chLt : List Char → List Char → Bool
  | [], [] => false
  | [], _ :: _ => true
  | _ :: _, [] => false
  | a :: as, b :: bs => if a.toNat < b.toNat then true else if b.toNat < a.toNat then false else chLt as bs

/-- Insertion into a sorted list. -/
def insertSorted (x : String) : List String → List String
  | [] => [x]
  | y :: ys => if chLt y.data x.data then y :: insertSorted x ys else x :: y :: ys

/-- `slices.Sort` over the job names (main.go line 81). -/
def sortStrings : List String → List String
  | [] => []
  | x :: xs => insertSorted x (sortStrings xs)

/-- The accumulation loop of `main` (main.go lines 88-94): every Periodic is
appended; a TestGroup is appended only when `!testgrid.isEmpty()`. -/
def mainLoop (outputDir : String) (config : ConfigFile) :
    List String → ProwConfigFile → TestgridConfig → Except Failure (ProwConfigFile × TestgridConfig)
  | [], pc, tc => .ok (pc, tc)
  | n :: rest, pc, tc =>
    match forEachJob outputDir n (lookupD config.Jobs n Job.zero) config with
    | .error e => .error e
    | .ok (prow, testgrid) =>
      mainLoop outputDir config rest { Periodics := pc.Periodics ++ [prow] }
        { TestGroups := if !testgrid.isEmpty then tc.TestGroups ++ [testgrid] else tc.TestGroups }

/-- The compilation `main` performs before writing files (main.go lines
76-94): job names sorted, then the loop. -/
def mainCompile (outputDir : String) (config : ConfigFile) :
    Except Failure (ProwConfigFile × TestgridConfig) :=
  mainLoop outputDir config (sortStrings (config.Jobs.map Prod.fst)) { Periodics := [] }
    { TestGroups := [] }

/-! ## Projections used to state the claims -/

/-- The decoration timeout of a successfully built Periodic. -/
def decorationTimeoutOf (r : Except Failure Periodic) : Option String :=
  match r with
  | .ok p => some p.DecorationConfig.Timeout
  | .error _ => none

/-- The compiled job args of a successful e2e `generate`. -/
def jobArgsOfT (r : Except Failure (Job × Periodic × TestGroup)) : Option (List String) :=
  match r with
  | .ok t => some t.1.Args
  | .error _ => none

/-- The compiled job args of a successful e2enode `generate`. -/
def jobArgsOfN (r : Except Failure (Job × Periodic)) : Option (List String) :=
  match r with
  | .ok t => some t.1.Args
  | .error _ => none

/-- The accumulated test groups of a successful run. -/
def testGroupsOf (r : Except Failure (ProwConfigFile × TestgridConfig)) : Option (List TestGroup) :=
  match r with
  | .ok t => some t.2.TestGroups
  | .error _ => none

/-- Whether a result is a `log.Fatal*` abort. -/
def isFatal {α : Type} : Except Failure α → Bool
  | .error (.fatal _) => true
  | _ => false

/-- Whether a result is a success. -/
def isOkB {α : Type} : Except Failure α → Bool
  | .ok _ => true
  | _ => false

/-- The shape rules of the job-name parser, as the spec states them: kind
token `e2e` with exactly 7 hyphen-separated tokens, or `e2enode` with
exactly 6. -/
def conformsShape (jobName : String) : Bool :=
  ((goSplit jobName '-').getD 2 "" == "e2e" && (goSplit jobName '-').length == 7) ||
    ((goSplit jobName '-').getD 2 "" == "e2enode" && (goSplit jobName '-').length == 6)

/-- The primary dashboard, as §4.5 of the spec words it (a spec-side
definition, compared against the source's `InitializeDashBoardsWithReleaseBlockingInfo`). -/
def specPrimaryDashboard (job : Job) (version : String) : String :=
  if job.ReleaseBlocking then "sig-release-" ++ version ++ "-blocking"
  else if job.ReleaseInforming then "sig-release-" ++ version ++ "-informing"
  else "sig-release-generated"

/-- The secondary dashboard list an e2e job gets when the image axis has a
testgrid prefix (main.go lines 251-254). -/
def e2eExtraDashboards (et : E2ETest) : List String :=
  if et.Image.TestgridPrefix ≠ "" then
    [et.Image.TestgridPrefix ++ "-" ++ et.fields.getD 4 "" ++ "-" ++ et.fields.getD 5 ""]
  else []

/-! ## Concrete inputs the claims are evaluated at -/

def jobC1 : Job := { Job.zero with Interval := "1h" }

def nameC1e2e : String := "ci-k8s-e2e-gcp-cos-ver129-default"

def nameC1node : String := "ci-k8s-e2enode-cos-ver129-default"

def cfgC1e2e : ConfigFile := { ConfigFile.zero with Jobs := [(nameC1e2e, jobC1)] }

def cfgC1node : ConfigFile := { ConfigFile.zero with Jobs := [(nameC1node, jobC1)] }

def etC2 : E2ETest :=
  { EnvFilename := "", JobName := "some-periodic-e2e", fields := [],
    Job := { Job.zero with Interval := "1h" }, Common := Common.zero,
    CloudProvider := CloudProvider.zero, Image := Image.zero, K8SVersion := K8SVersion.zero,
    TestSuite := TestSuite.zero }

def entC2 : E2ENodeTest :=
  { JobName := "some-periodic-e2enode", fields := [], Job := { Job.zero with Interval := "1h" },
    Common := Common.zero, Image := Image.zero, K8SVersion := NodeK8SVersion.zero,
    TestSuite := TestSuite.zero }

def tsC2 : TestSuite := { TestSuite.zero with Args := ["--test=foo", "--provider=gce"] }

def etC4 : E2ETest :=
  { EnvFilename := "", JobName := "a-b-e2e-cp-img-ver1-suite",
    fields := goSplit "a-b-e2e-cp-img-ver1-suite" '-', Job := { Job.zero with Interval := "1h" },
    Common := { Args := ["--c"], TestgridPrefix := "" }, CloudProvider := { Args := ["--cp"] },
    Image := { Args := ["--img"], TestgridPrefix := "" },
    K8SVersion := { Args := ["--k8s"], Version := "1.29" },
    TestSuite := { TestSuite.zero with Args := ["--ts"] } }

def entC4 : E2ENodeTest :=
  { JobName := "a-b-e2enode-img-ver1-suite", fields := goSplit "a-b-e2enode-img-ver1-suite" '-',
    Job := { Job.zero with Interval := "1h" }, Common := { Args := ["--nc"], TestgridPrefix := "" },
    Image := { Args := ["--nimg"], TestgridPrefix := "" }, K8SVersion := NodeK8SVersion.zero,
    TestSuite := { TestSuite.zero with Args := ["--nts"] } }

def etC6 : E2ETest :=
  { EnvFilename := "", JobName := "jobC6", fields := [], Job := { Job.zero with Interval := "1h" },
    Common := Common.zero, CloudProvider := CloudProvider.zero, Image := Image.zero,
    K8SVersion := K8SVersion.zero, TestSuite := TestSuite.zero }

def tsC6 : TestSuite := { TestSuite.zero with Args := ["--timeout=9223372036854775808m"] }

def tsC6b : TestSuite := { TestSuite.zero with Args := ["--timeout=120m"] }

def etC7 : E2ETest :=
  { EnvFilename := "", JobName := "", fields := [],
    Job := { Job.zero with ReleaseBlocking := true }, Common := Common.zero,
    CloudProvider := CloudProvider.zero, Image := Image.zero,
    K8SVersion := { Args := [], Version := "1.29" }, TestSuite := TestSuite.zero }

def etC9 : E2ETest :=
  { EnvFilename := "", JobName := "", fields := [], Job := Job.zero, Common := Common.zero,
    CloudProvider := CloudProvider.zero, Image := Image.zero, K8SVersion := K8SVersion.zero,
    TestSuite := TestSuite.zero }

/-! ## Helper lemmas -/

lemma updateContainer0_interval (p : Periodic) (f : Container → Container) :
    (p.updateContainer0 f).Interval = p.Interval := rfl

lemma updateContainer0_cron (p : Periodic) (f : Container → Container) :
    (p.updateContainer0 f).Cron = p.Cron := rfl

lemma updateContainer0_annotations (p : Periodic) (f : Container → Container) :
    (p.updateContainer0 f).Annotations = p.Annotations := rfl

lemma updateContainer0_decoration (p : Periodic) (f : Container → Container) :
    (p.updateContainer0 f).DecorationConfig = p.DecorationConfig := rfl

lemma withClusterAndResources_annotations (p : Periodic) (ts : TestSuite) (j : Job) :
    (withClusterAndResources p ts j).Annotations = p.Annotations := by
  unfold withClusterAndResources
  repeat' split
  all_goals rfl

/-- The node-only tail keeps the schedule and the decoration config. -/
lemma nodeFinalizeProw_sched (p : Periodic) (k : NodeK8SVersion) :
    (nodeFinalizeProw p k).Interval = p.Interval ∧ (nodeFinalizeProw p k).Cron = p.Cron ∧
      (nodeFinalizeProw p k).DecorationConfig = p.DecorationConfig := by
  unfold nodeFinalizeProw
  split <;> exact ⟨rfl, rfl, rfl⟩

/-- A successful schedule step: the annotations are untouched and exactly one
of Interval/Cron is set (the source job's Interval wins). -/
lemma withSchedule_ok {p : Periodic} {j : Job} {q : Periodic} (h : withSchedule p j = .ok q) :
    q.Annotations = p.Annotations ∧
      ((q.Interval = j.Interval ∧ j.Interval ≠ "" ∧ q.Cron = "") ∨
        (j.Interval = "" ∧ q.Interval = "" ∧ q.Cron = j.Cron ∧ j.Cron ≠ "")) := by
  unfold withSchedule at h
  split at h
  · next hi =>
    cases h
    exact ⟨rfl, Or.inl ⟨rfl, hi, rfl⟩⟩
  · next hi =>
    split at h
    · next hc =>
      cases h
      exact ⟨rfl, Or.inr ⟨by simpa using hi, rfl, rfl, hc⟩⟩
    · cases h

/-- With a schedule present the schedule step succeeds. -/
lemma withSchedule_isOk (p : Periodic) {j : Job} (h : j.Interval ≠ "" ∨ j.Cron ≠ "") :
    ∃ q, withSchedule p j = .ok q := by
  unfold withSchedule
  by_cases hi : j.Interval ≠ ""
  · exact ⟨_, by rw [if_pos hi]⟩
  · have hc : j.Cron ≠ "" := h.resolve_left (by simpa using hi)
    exact ⟨_, by rw [if_neg hi, if_pos hc]⟩

/-- With no schedule the schedule step is the fatal missing-schedule error. -/
lemma withSchedule_err {p : Periodic} {j : Job} (h1 : j.Interval = "") (h2 : j.Cron = "") :
    withSchedule p j = .error (.fatal "No interval or cron definition found") := by
  unfold withSchedule
  rw [if_neg (by simp [h1]), if_neg (by simp [h2])]

/-- A fatal error out of the timeout scan always carries the parse-error
message. -/
lemma scanTimeout_fatal_msg {name : String} {args : List String} {m : String}
    (h : scanTimeout name args = .error (.fatal m)) :
    m = "error, parsing timeout of job: " ++ name := by
  induction args with
  | nil => simp [scanTimeout] at h
  | cons a rest ih =>
    unfold scanTimeout at h
    split at h
    · split at h
      · simp at h
      · split at h
        · simp at h
          exact h.symm
        · simp at h
    · exact ih h

/-- The two fatal messages of the Periodic pipeline differ. -/
lemma timeout_msg_ne_schedule (name : String) :
    "error, parsing timeout of job: " ++ name ≠ "No interval or cron definition found" := by
  intro h
  have h2 := congrArg String.data h
  rw [String.data_append] at h2
  simp at h2

/-- A timeout scan over arguments none of which carries the `--timeout=`
prefix yields the zero value. -/
lemma scanTimeout_eq_zero {name : String} {args : List String}
    (h : ∀ a ∈ args, goHasPrefix a "--timeout=" = false) :
    scanTimeout name args = .ok 0 := by
  induction args with
  | nil => rfl
  | cons a rest ih =>
    have ha := h a (by simp)
    unfold scanTimeout
    rw [if_neg (by simp [ha])]
    exact ih (fun x hx => h x (by simp [hx]))

/-- Arguments without the prefix are skipped by the timeout scan. -/
lemma scanTimeout_skip {name : String} {pre : List String} (arg : String) (post : List String)
    (h : ∀ a ∈ pre, goHasPrefix a "--timeout=" = false) :
    scanTimeout name (pre ++ arg :: post) = scanTimeout name (arg :: post) := by
  induction pre with
  | nil => rfl
  | cons a rest ih =>
    have ha := h a (by simp)
    rw [List.cons_append]
    unfold scanTimeout
    rw [if_neg (by simp [ha])]
    exact ih (fun x hx => h x (by simp [hx]))

lemma chHasPrefix_append (p rest : List Char) : chHasPrefix (p ++ rest) p = true := by
  induction p with
  | nil => cases rest <;> rfl
  | cons c cs ih => simp [chHasPrefix, ih]

/-- A successful timeout step rewrites only the decoration config. -/
lemma withTimeout_ok {p : Periodic} {name : String} {tsArgs : List String} {q : Periodic}
    (h : withTimeout p name tsArgs = .ok q) :
    q.Interval = p.Interval ∧ q.Cron = p.Cron ∧ q.Annotations = p.Annotations := by
  unfold withTimeout at h
  split at h
  · cases h
  · cases h
    exact ⟨rfl, rfl, rfl⟩

/-- The decoration timeout an e2e Periodic ends with, from the scanned
timeout value. -/
lemma getProwConfig_timeout_e2e {et : E2ETest} {ts : TestSuite} {N : Int}
    (hs : et.Job.Interval ≠ "" ∨ et.Job.Cron ≠ "")
    (ht : scanTimeout et.JobName ts.Args = .ok N) :
    decorationTimeoutOf (et.getProwConfig ts) =
      some (intDecRepr (wrap64 (N + 20)) ++ "m") := by
  obtain ⟨q, hq⟩ := withSchedule_isOk (withClusterAndResources (baseProwConfig et.JobName) ts et.Job) hs
  have hwt : withTimeout q et.JobName ts.Args =
      .ok { q with DecorationConfig := { Timeout := intDecRepr (wrap64 (N + 20)) ++ "m" } } := by
    unfold withTimeout
    rw [ht]
  unfold E2ETest.getProwConfig
  simp only [hq, hwt]
  rfl

/-- The decoration timeout an e2enode Periodic ends with. -/
lemma getProwConfig_timeout_node {ent : E2ENodeTest} {ts : TestSuite} {k : NodeK8SVersion} {N : Int}
    (hs : ent.Job.Interval ≠ "" ∨ ent.Job.Cron ≠ "")
    (ht : scanTimeout ent.JobName ts.Args = .ok N) :
    decorationTimeoutOf (ent.getProwConfig ts k) =
      some (intDecRepr (wrap64 (N + 20)) ++ "m") := by
  obtain ⟨q, hq⟩ := withSchedule_isOk (withClusterAndResources (baseProwConfig ent.JobName) ts ent.Job) hs
  have hwt : withTimeout q ent.JobName ts.Args =
      .ok { q with DecorationConfig := { Timeout := intDecRepr (wrap64 (N + 20)) ++ "m" } } := by
    unfold withTimeout
    rw [ht]
  unfold E2ENodeTest.getProwConfig
  simp only [hq, hwt]
  have hfin := (nodeFinalizeProw_sched
    { q with DecorationConfig := { Timeout := intDecRepr (wrap64 (N + 20)) ++ "m" } } k).2.2
  simp only [decorationTimeoutOf, hfin]

/-- A failing timeout scan aborts the e2e Periodic build with that error. -/
lemma getProwConfig_timeout_err_e2e {et : E2ETest} {ts : TestSuite} {e : Failure}
    (hs : et.Job.Interval ≠ "" ∨ et.Job.Cron ≠ "")
    (ht : scanTimeout et.JobName ts.Args = .error e) :
    et.getProwConfig ts = .error e := by
  obtain ⟨q, hq⟩ := withSchedule_isOk (withClusterAndResources (baseProwConfig et.JobName) ts et.Job) hs
  have hwt : withTimeout q et.JobName ts.Args = .error e := by
    unfold withTimeout
    rw [ht]
  unfold E2ETest.getProwConfig
  simp only [hq, hwt]

/-- Bounds carried by a successful `strconv.Atoi`. -/
lemma goAtoi_range {s : String} {n : Int} (h : goAtoi s = some n) :
    -9223372036854775808 ≤ n ∧ n ≤ 9223372036854775807 := by
  unfold goAtoi at h
  split at h
  · cases h
  all_goals
    rw [Option.bind_eq_some] at h
    obtain ⟨k, -, hif⟩ := h
    split at hif
    · cases hif
      constructor <;> omega
    · cases hif

/-- Within the 64-bit range the wrap is the identity. -/
lemma wrap64_eq_self {i : Int} (h1 : -9223372036854775808 ≤ i) (h2 : i ≤ 9223372036854775807) :
    wrap64 i = i := by
  unfold wrap64
  rw [Int.emod_eq_of_lt (by omega) (by omega)]
  omega

/-- A successful e2e `generate`, decomposed into its three components. -/
lemma e2eGenerate_ok {et : E2ETest} {t : Job × Periodic × TestGroup} (h : et.generate = .ok t) :
    et.fields.length = 7 ∧ ∃ p, et.getProwConfig et.TestSuite = .ok p ∧
      t = (et.getJobDefinition (baseE2EArgs et), e2eAnnotate et p, et.getTestGridConfig) := by
  unfold E2ETest.generate at h
  split at h
  · cases h
  next hlen =>
    rcases hp : et.getProwConfig et.TestSuite with e | p
    · rw [hp] at h
      cases h
    · rw [hp] at h
      cases h
      exact ⟨by simpa using hlen, p, rfl, rfl⟩

/-- The compiled args of a successful e2e `generate` are the base layering. -/
lemma e2eGenerate_args {et : E2ETest} {t : Job × Periodic × TestGroup} (h : et.generate = .ok t) :
    t.1.Args = baseE2EArgs et := by
  obtain ⟨-, p, -, ht⟩ := e2eGenerate_ok h
  rw [ht]
  rfl

/-- A successful e2enode `generate`, decomposed. -/
lemma nodeGenerate_ok {ent : E2ENodeTest} {t : Job × Periodic} (h : ent.generate = .ok t) :
    ent.fields.length = 6 ∧ ∃ p, ent.getProwConfig ent.TestSuite ent.K8SVersion = .ok p ∧
      t = ({ ent.getJobDefinition (baseNodeArgs ent) with
              Args := coalesceNodeArgs (ent.getJobDefinition (baseNodeArgs ent)).Args },
            nodeAnnotate ent p) := by
  unfold E2ENodeTest.generate at h
  split at h
  · cases h
  next hlen =>
    rcases hp : ent.getProwConfig ent.TestSuite ent.K8SVersion with e | p
    · rw [hp] at h
      cases h
    · rw [hp] at h
      cases h
      exact ⟨by simpa using hlen, p, rfl, rfl⟩

/-- The compiled args of a successful e2enode `generate`: the coalescing pass
applied to the base layering. -/
lemma nodeGenerate_args {ent : E2ENodeTest} {t : Job × Periodic} (h : ent.generate = .ok t) :
    t.1.Args = coalesceNodeArgs (baseNodeArgs ent) := by
  obtain ⟨-, p, -, ht⟩ := nodeGenerate_ok h
  rw [ht]
  rfl

/-- When the base list has exactly one matching entry, the override search
finds it. -/
lemma findOverrideMatch_of_filter_eq {name : String} {base : List String} {m : String}
    (h : base.filter (fun v => matchesName name v) = [m]) : findOverrideMatch name base = m := by
  induction base with
  | nil => simp at h
  | cons v vs ih =>
    rw [List.filter_cons] at h
    by_cases hv : matchesName name v = true
    · rw [if_pos hv] at h
      obtain ⟨rfl, -⟩ := List.cons_eq_cons.mp h
      unfold findOverrideMatch
      rw [if_pos hv]
    · rw [if_neg hv] at h
      unfold findOverrideMatch
      rw [if_neg hv]
      exact ih h

/-- With no matching entry the override search returns the zero value. -/
lemma findOverrideMatch_of_filter_nil {name : String} {base : List String}
    (h : base.filter (fun v => matchesName name v) = []) : findOverrideMatch name base = "" := by
  induction base with
  | nil => rfl
  | cons v vs ih =>
    rw [List.filter_cons] at h
    by_cases hv : matchesName name v = true
    · rw [if_pos hv] at h
      simp at h
    · rw [if_neg hv] at h
      unfold findOverrideMatch
      rw [if_neg hv]
      exact ih h

/-- One application step of `applyJobOverrides`, written out. -/
lemma applyJobOverrides_single (base : List String) (o : String) :
    applyJobOverrides base [o] =
      (if findOverrideMatch ((goSplit o '=').headD "") base ≠ "" then
        removeFirstEq (findOverrideMatch ((goSplit o '=').headD "") base) base
      else base) ++ [o] := rfl

/-- The pulled node-arg values are a filter-then-map over the compiled args. -/
lemma nodeArgValues_eq (args : List String) :
    nodeArgValues args =
      (args.filter (fun a => goContains a "--node-args=")).map
        (fun a => (goSplitN2 a '=').getD 1 "") := by
  induction args with
  | nil => rfl
  | cons a rest ih =>
    by_cases ha : goContains a "--node-args=" = true <;>
      simp [nodeArgValues, List.filter_cons, ha, ih]

/-- The kept args are the filter on the negated test. -/
lemma nodeKeptArgs_eq (args : List String) :
    nodeKeptArgs args = args.filter (fun a => !goContains a "--node-args=") := by
  induction args with
  | nil => rfl
  | cons a rest ih =>
    by_cases ha : goContains a "--node-args=" = true <;>
      simp [nodeKeptArgs, List.filter_cons, ha, ih]

/-- The coalescing pass, characterized on the whole list. -/
lemma coalesceNodeArgs_eq (args : List String) :
    coalesceNodeArgs args =
      args.filter (fun a => !goContains a "--node-args=") ++
        (if args.filter (fun a => goContains a "--node-args=") = [] then []
         else
          [goTrimSpace
            (((args.filter (fun a => goContains a "--node-args=")).map
                (fun a => (goSplitN2 a '=').getD 1 "")).foldl
              (fun acc arg => acc ++ arg ++ " ") "--node-args=")]) := by
  unfold coalesceNodeArgs
  rw [nodeArgValues_eq, nodeKeptArgs_eq]
  by_cases hf : args.filter (fun a => goContains a "--node-args=") = []
  · rw [hf]
    simp
  · rw [if_neg hf, if_pos (by simp [hf])]

lemma mapGet_head (m : List (String × String)) (k v : String) :
    mapGet ((k, v) :: m) k = some v := by
  unfold mapGet
  rw [List.find?_cons_of_pos _ (by simp)]
  rfl

lemma mapGet_tail (m : List (String × String)) (k k' v : String) (h : (k' == k) = false) :
    mapGet ((k', v) :: m) k = mapGet m k := by
  unfold mapGet
  rw [List.find?_cons_of_neg _ (by simpa using h)]

/-- The dashboards annotation an e2e job ends with: the primary dashboard (as
the spec words it) in front, the prefixed dashboard behind it when the image
axis carries a testgrid prefix. -/
lemma e2eAnnotate_dashboards (et : E2ETest) (p : Periodic) :
    mapGet (e2eAnnotate et p).Annotations "testgrid-dashboards" =
      some (goJoin ", "
        (specPrimaryDashboard et.Job et.K8SVersion.Version :: e2eExtraDashboards et)) := by
  by_cases hpref : et.Image.TestgridPrefix ≠ ""
  · unfold e2eAnnotate
    simp only [mapSet, if_pos hpref]
    rw [mapGet_tail _ _ _ _ (by decide), mapGet_head]
    unfold e2eExtraDashboards
    rw [if_pos hpref]
    rfl
  · unfold e2eAnnotate
    simp only [mapSet, if_neg hpref]
    rw [mapGet_tail _ _ _ _ (by decide), mapGet_head]
    unfold e2eExtraDashboards
    rw [if_neg hpref]
    rfl

/-- A first `--timeout=` argument assembled from a numeric part and a final
unit character is parsed exactly on the numeric part. -/
lemma scanTimeout_timeout_arg (name numStr : String) (u : Char) (post : List String) :
    scanTimeout name (("--timeout=" ++ numStr ++ ⟨[u]⟩) :: post) =
      match goAtoi numStr with
      | none => .error (.fatal ("error, parsing timeout of job: " ++ name))
      | some t => .ok t := by
  have hdata : ("--timeout=" ++ numStr ++ ⟨[u]⟩ : String).data =
      ("--timeout=" : String).data ++ (numStr.data ++ [u]) := by
    rw [String.data_append, String.data_append]
    simp
  have hpre : goHasPrefix ("--timeout=" ++ numStr ++ ⟨[u]⟩) "--timeout=" = true := by
    unfold goHasPrefix
    rw [hdata]
    exact chHasPrefix_append _ _
  have hlen : ¬ (("--timeout=" ++ numStr ++ ⟨[u]⟩ : String).data.length < 11) := by
    rw [hdata, List.length_append, List.length_append]
    have h10 : ("--timeout=" : String).data.length = 10 := rfl
    rw [h10]
    simp only [List.length_singleton]
    omega
  have hval : (⟨((("--timeout=" ++ numStr ++ ⟨[u]⟩ : String).data).drop 10).dropLast⟩ : String) =
      numStr := by
    rw [hdata]
    rw [show (10 : Nat) = ("--timeout=" : String).data.length from rfl]
    rw [List.drop_left, List.dropLast_concat]
  unfold scanTimeout
  rw [if_pos hpre, if_neg hlen, hval]

/-- A malformed first `--timeout=` argument (Atoi failure) makes the scan
fatal. -/
lemma scanTimeout_cons_err {name arg : String} {post : List String}
    (hpre : goHasPrefix arg "--timeout=" = true) (hlen : ¬ (arg.data.length < 11))
    (hv : goAtoi ⟨(arg.data.drop 10).dropLast⟩ = none) :
    scanTimeout name (arg :: post) =
      .error (.fatal ("error, parsing timeout of job: " ++ name)) := by
  unfold scanTimeout
  rw [if_pos hpre, if_neg hlen, hv]

/-- An erroring timeout step forwards the scan's error. -/
lemma withTimeout_err {p : Periodic} {n : String} {ts : List String} {e : Failure}
    (h : withTimeout p n ts = .error e) : scanTimeout n ts = .error e := by
  unfold withTimeout at h
  split at h
  · cases h
    assumption
  · cases h

/-! ## The claims -/

/-- C1: the claim says a TestGroup is included in the test-group output for
every e2e-kind job and for no e2enode-kind job.  The code does the opposite:
`TestGroup.isEmpty` (main.go lines 672-674) returns `true` exactly on
NON-empty groups, so the `!testgrid.isEmpty()` filter in `main` (line 91)
drops every e2e job's populated TestGroup and keeps the zero-valued group an
e2enode job produces.  Evaluated here on a one-job e2e configuration (no
group in the output) and a one-job e2enode configuration (one empty group in
the output). -/
theorem C1_testgroup_inversion :
    testGroupsOf (mainCompile "od" cfgC1e2e) = some [] ∧
    (newE2ETest "od" nameC1e2e jobC1 cfgC1e2e).map
        (fun et => TestGroup.isEmpty et.getTestGridConfig) = .ok true ∧
    testGroupsOf (mainCompile "od" cfgC1node) = some [TestGroup.zero] ∧
    TestGroup.isEmpty TestGroup.zero = false := by
  decide

/-- C2: the claim says that with no `--timeout=` entry the default timeout
`"180m"` stays.  In the code the assignment at main.go lines 370-371 is
unconditional: the Go variable `timeout` keeps its zero value and the
decoration timeout becomes `"20m"` (the dead `"180m"` default of lines
315-317 never survives), for both job kinds; no error is raised. -/
theorem C2_timeout_default_overwritten :
    decorationTimeoutOf (etC2.getProwConfig tsC2) = some "20m" ∧
    decorationTimeoutOf (etC2.getProwConfig tsC2) ≠ some "180m" ∧
    decorationTimeoutOf (entC2.getProwConfig tsC2 NodeK8SVersion.zero) = some "20m" ∧
    (∀ (et : E2ETest) (ts : TestSuite), et.Job.Interval ≠ "" ∨ et.Job.Cron ≠ "" →
      (∀ a ∈ ts.Args, goHasPrefix a "--timeout=" = false) →
      decorationTimeoutOf (et.getProwConfig ts) = some "20m") ∧
    (∀ (ent : E2ENodeTest) (ts : TestSuite) (k : NodeK8SVersion),
      ent.Job.Interval ≠ "" ∨ ent.Job.Cron ≠ "" →
      (∀ a ∈ ts.Args, goHasPrefix a "--timeout=" = false) →
      decorationTimeoutOf (ent.getProwConfig ts k) = some "20m") := by
  refine ⟨by decide, by decide, by decide, ?_, ?_⟩
  · intro et ts hs hargs
    rw [getProwConfig_timeout_e2e hs (scanTimeout_eq_zero hargs)]
    decide
  · intro ent ts k hs hargs
    rw [getProwConfig_timeout_node hs (scanTimeout_eq_zero hargs)]
    decide

/-- C3 counterexample: the override entry `"=x"` has name `""` (the substring
before the first `=`), which matches exactly one base entry, the empty
string; the claim then demands that entry's removal, but the code's
`envOrArg != ""` found-check (main.go line 176) conflates a match on the
empty string with no match, so nothing is removed. -/
theorem C3_override_counterexample :
    (goSplit "=x" '=').headD "" = "" ∧
    List.filter (fun v => matchesName "" v) [""] = [""] ∧
    applyJobOverrides [""] ["=x"] = ["", "=x"] ∧
    applyJobOverrides [""] ["=x"] ≠ removeFirstEq "" [""] ++ ["=x"] := by
  decide

/-- C3 amended: the quoted example holds, and in general, for an override
entry whose name matches at most one base entry, the matched entry is removed
(the remaining base entries keep their order) and the override entry is
appended at the tail — PROVIDED the matched entry is not the empty string (an
empty-string base entry is matched but never removed, per the
counterexample). -/
theorem C3_override_amended :
    applyJobOverrides ["--foo=1", "--bar=2"] ["--foo=3"] = ["--bar=2", "--foo=3"] ∧
    (∀ (base : List String) (o m : String),
      base.filter (fun v => matchesName ((goSplit o '=').headD "") v) = [m] → m ≠ "" →
      applyJobOverrides base [o] = removeFirstEq m base ++ [o]) ∧
    (∀ (base : List String) (o : String),
      base.filter (fun v => matchesName ((goSplit o '=').headD "") v) = [] →
      applyJobOverrides base [o] = base ++ [o]) := by
  refine ⟨by decide, ?_, ?_⟩
  · intro base o m hf hm
    rw [applyJobOverrides_single, findOverrideMatch_of_filter_eq hf, if_pos hm]
  · intro base o hf
    rw [applyJobOverrides_single, findOverrideMatch_of_filter_nil hf]
    simp

/-- C4 counterexample: for an e2e job whose image axis carries arguments, the
compiled base list contains the Image layer between CloudProvider and
K8sVersion (main.go line 238), so it is not the four-layer concatenation the
claim (reading `CloudProvider-or-Image` as the one kind-selected layer)
describes. -/
theorem C4_layering_counterexample :
    jobArgsOfT etC4.generate = some ["--c", "--cp", "--img", "--k8s", "--ts"] ∧
    jobArgsOfT etC4.generate ≠ some ["--c", "--cp", "--k8s", "--ts"] := by
  decide

/-- C4 amended: for every e2e job the base argument list is the concatenation
Common ++ CloudProvider ++ Image ++ K8sVersion ++ TestSuite (five layers,
each hash-substituted), and for every e2enode job the list handed on is the
node-args pass applied to Common ++ Image ++ TestSuite (no K8sVersion
layer). -/
theorem C4_layering_amended :
    (∀ (et : E2ETest) (t : Job × Periodic × TestGroup), et.generate = .ok t →
      t.1.Args =
        getArgs et.JobName et.Common.Args ++ getArgs et.JobName et.CloudProvider.Args ++
          getArgs et.JobName et.Image.Args ++ getArgs et.JobName et.K8SVersion.Args ++
            getArgs et.JobName et.TestSuite.Args) ∧
    (∀ (ent : E2ENodeTest) (t : Job × Periodic), ent.generate = .ok t →
      t.1.Args =
        coalesceNodeArgs
          (getArgs ent.JobName ent.Common.Args ++ getArgs ent.JobName ent.Image.Args ++
            getArgs ent.JobName ent.TestSuite.Args)) ∧
    jobArgsOfN entC4.generate = some ["--nc", "--nimg", "--nts"] := by
  refine ⟨?_, ?_, by decide⟩
  · intro et t h
    exact e2eGenerate_args h
  · intro ent t h
    exact nodeGenerate_args h

/-- C5 counterexample: the pass selects with `strings.Contains` (main.go line
504), not a prefix test, so an argument that merely CONTAINS `--node-args=`
is also pulled out and mangled, where the claim says it is kept. -/
theorem C5_node_args_counterexample :
    goHasPrefix "--x=--node-args=y" "--node-args=" = false ∧
    coalesceNodeArgs ["--x=--node-args=y"] = ["--node-args=--node-args=y"] ∧
    coalesceNodeArgs ["--x=--node-args=y"] ≠ ["--x=--node-args=y"] := by
  decide

/-- C5 amended: the quoted example holds; in general every argument
CONTAINING `--node-args=` is pulled out in encounter order, the portion after
each such argument's first `=` is joined (each value followed by one space,
the result trimmed) into a single trailing `--node-args=...` entry, and all
other arguments are kept in order; `generate` hands exactly this pass's
output on. -/
theorem C5_node_args_amended :
    coalesceNodeArgs ["--node-args=a", "--x=1", "--node-args=b"] = ["--x=1", "--node-args=a b"] ∧
    (∀ args : List String,
      coalesceNodeArgs args =
        args.filter (fun a => !goContains a "--node-args=") ++
          (if args.filter (fun a => goContains a "--node-args=") = [] then []
           else
            [goTrimSpace
              (((args.filter (fun a => goContains a "--node-args=")).map
                  (fun a => (goSplitN2 a '=').getD 1 "")).foldl
                (fun acc arg => acc ++ arg ++ " ") "--node-args=")])) ∧
    (∀ (ent : E2ENodeTest) (t : Job × Periodic), ent.generate = .ok t →
      t.1.Args = coalesceNodeArgs (baseNodeArgs ent)) := by
  refine ⟨by decide, coalesceNodeArgs_eq, ?_⟩
  intro ent t h
  exact nodeGenerate_args h

/-- C6 counterexample: `9223372036854775808` (2^63) is a decimal integer, but
`strconv.Atoi` reports a range error for it, which the code turns into a
fatal abort (main.go lines 363-366) instead of emitting a Periodic with
timeout `"<N+20>m"` as the claim demands for every decimal `N`. -/
theorem C6_timeout_counterexample :
    goAtoi "9223372036854775808" = none ∧
    etC6.getProwConfig tsC6 = .error (.fatal "error, parsing timeout of job: jobC6") ∧
    decorationTimeoutOf (etC6.getProwConfig tsC6) = none := by
  decide

/-- C6 amended: `--timeout=120m` yields `"140m"`; in general, for a first
timeout entry `--timeout=<N><unit>` whose numeric part Atoi accepts (so
`-2^63 ≤ N ≤ 2^63-1`) with additionally `N ≤ 2^63-21` (so that `N+20` does
not overflow the 64-bit addition), the decoration timeout is `"<N+20>m"`,
for either job kind; a numeric part Atoi rejects (non-numeric, or out of the
64-bit range) is a fatal error. -/
theorem C6_timeout_amended :
    decorationTimeoutOf (etC6.getProwConfig tsC6b) = some "140m" ∧
    (∀ (et : E2ETest) (ts : TestSuite) (pre post : List String) (numStr : String) (u : Char)
      (N : Int),
      ts.Args = pre ++ ("--timeout=" ++ numStr ++ ⟨[u]⟩) :: post →
      (∀ a ∈ pre, goHasPrefix a "--timeout=" = false) →
      goAtoi numStr = some N → N ≤ 9223372036854775787 →
      et.Job.Interval ≠ "" ∨ et.Job.Cron ≠ "" →
      decorationTimeoutOf (et.getProwConfig ts) = some (intDecRepr (N + 20) ++ "m")) ∧
    (∀ (ent : E2ENodeTest) (ts : TestSuite) (k : NodeK8SVersion) (pre post : List String)
      (numStr : String) (u : Char) (N : Int),
      ts.Args = pre ++ ("--timeout=" ++ numStr ++ ⟨[u]⟩) :: post →
      (∀ a ∈ pre, goHasPrefix a "--timeout=" = false) →
      goAtoi numStr = some N → N ≤ 9223372036854775787 →
      ent.Job.Interval ≠ "" ∨ ent.Job.Cron ≠ "" →
      decorationTimeoutOf (ent.getProwConfig ts k) = some (intDecRepr (N + 20) ++ "m")) ∧
    (∀ (et : E2ETest) (ts : TestSuite) (pre post : List String) (numStr : String) (u : Char),
      ts.Args = pre ++ ("--timeout=" ++ numStr ++ ⟨[u]⟩) :: post →
      (∀ a ∈ pre, goHasPrefix a "--timeout=" = false) →
      goAtoi numStr = none →
      et.Job.Interval ≠ "" ∨ et.Job.Cron ≠ "" →
      et.getProwConfig ts = .error (.fatal ("error, parsing timeout of job: " ++ et.JobName))) := by
  refine ⟨by decide, ?_, ?_, ?_⟩
  · intro et ts pre post numStr u N hargs hpre hN hNle hs
    have hscan : scanTimeout et.JobName ts.Args = .ok N := by
      rw [hargs, scanTimeout_skip _ _ hpre, scanTimeout_timeout_arg, hN]
    rw [getProwConfig_timeout_e2e hs hscan]
    have hrange := goAtoi_range hN
    rw [wrap64_eq_self (by omega) (by omega)]
  · intro ent ts k pre post numStr u N hargs hpre hN hNle hs
    have hscan : scanTimeout ent.JobName ts.Args = .ok N := by
      rw [hargs, scanTimeout_skip _ _ hpre, scanTimeout_timeout_arg, hN]
    rw [getProwConfig_timeout_node hs hscan]
    have hrange := goAtoi_range hN
    rw [wrap64_eq_self (by omega) (by omega)]
  · intro et ts pre post numStr u hargs hpre hN hs
    have hscan : scanTimeout et.JobName ts.Args =
        .error (.fatal ("error, parsing timeout of job: " ++ et.JobName)) := by
      rw [hargs, scanTimeout_skip _ _ hpre, scanTimeout_timeout_arg, hN]
    exact getProwConfig_timeout_err_e2e hs hscan

/-- C7: the dashboard list starts with the primary dashboard — `sig-release-
<version>-blocking` when ReleaseBlocking is set, else `-informing` when
ReleaseInforming is set, else `sig-release-generated` — with the version
taken from the resolved K8SVersion axis, and `generate` writes exactly that
list (joined) into the `testgrid-dashboards` annotation; in particular
ReleaseBlocking with version `1.29` yields `sig-release-1.29-blocking`. -/
theorem C7_primary_dashboard :
    (∀ (et : E2ETest) (v : String),
      et.InitializeDashBoardsWithReleaseBlockingInfo v = [specPrimaryDashboard et.Job v]) ∧
    (∀ (et : E2ETest) (t : Job × Periodic × TestGroup), et.generate = .ok t →
      mapGet t.2.1.Annotations "testgrid-dashboards" =
        some (goJoin ", "
          (specPrimaryDashboard et.Job et.K8SVersion.Version :: e2eExtraDashboards et))) ∧
    etC7.InitializeDashBoardsWithReleaseBlockingInfo "1.29" = ["sig-release-1.29-blocking"] := by
  refine ⟨fun et v => rfl, ?_, by decide⟩
  intro et t h
  obtain ⟨-, p, -, ht⟩ := e2eGenerate_ok h
  rw [ht]
  exact e2eAnnotate_dashboards et p

/-- C8: a job name failing the shape rules (kind token other than
`e2e`/`e2enode`, or a token count other than 7 for `e2e` and 6 for
`e2enode`) makes the compilation of that job abort with a fatal error; a
name with the right token count never makes the constructor abort fatally,
and (when the version token is long enough to strip — see C10 for the
short-token panic) the axis keys are taken at the fixed positions, the
version key with its first 3 characters stripped. -/
theorem C8_name_shape :
    (∀ (outputDir jobName : String) (job : Job) (config : ConfigFile),
      conformsShape jobName = false → isFatal (forEachJob outputDir jobName job config) = true) ∧
    (∀ (outputDir jobName : String) (job : Job) (config : ConfigFile),
      (goSplit jobName '-').length = 7 →
      isFatal (newE2ETest outputDir jobName job config) = false ∧
      (3 ≤ ((goSplit jobName '-').getD 5 "").data.length →
        newE2ETest outputDir jobName job config = .ok
          { EnvFilename := outputDir ++ "/" ++ jobName ++ ".env"
            JobName := jobName
            Job := job
            fields := goSplit jobName '-'
            Common := config.Common
            CloudProvider :=
              lookupD config.CloudProviders ((goSplit jobName '-').getD 3 "") CloudProvider.zero
            Image := lookupD config.Images ((goSplit jobName '-').getD 4 "") Image.zero
            K8SVersion :=
              lookupD config.K8SVersions ⟨((goSplit jobName '-').getD 5 "").data.drop 3⟩
                K8SVersion.zero
            TestSuite :=
              lookupD config.TestSuites ((goSplit jobName '-').getD 6 "") TestSuite.zero })) ∧
    (∀ (jobName : String) (job : Job) (config : ConfigFile),
      (goSplit jobName '-').length = 6 →
      isFatal (newE2ENodeTest jobName job config) = false ∧
      (3 ≤ ((goSplit jobName '-').getD 4 "").data.length →
        newE2ENodeTest jobName job config = .ok
          { JobName := jobName
            Job := job
            fields := goSplit jobName '-'
            Common := config.Common
            Image := lookupD config.Images ((goSplit jobName '-').getD 3 "") Image.zero
            K8SVersion :=
              lookupD config.NodeK8SVersions ⟨((goSplit jobName '-').getD 4 "").data.drop 3⟩
                NodeK8SVersion.zero
            TestSuite :=
              lookupD config.TestSuites ((goSplit jobName '-').getD 5 "") TestSuite.zero })) ∧
    isFatal (forEachJob "od" "a-b-bogus-c" Job.zero ConfigFile.zero) = true := by
  refine ⟨?_, ?_, ?_, by decide⟩
  · intro od name job cfg hc
    simp only [conformsShape, Bool.or_eq_false_iff, Bool.and_eq_false_iff,
      beq_eq_false_iff_ne, ne_eq] at hc
    by_cases h3 : (goSplit name '-').length < 3
    · simp [forEachJob, h3, isFatal]
    · by_cases he : (goSplit name '-').getD 2 "" = "e2e"
      · have h7 : (goSplit name '-').length ≠ 7 := by
          rcases hc.1 with h | h
          · exact absurd he h
          · simpa using h
        have hn : newE2ETest od name job cfg =
            .error (.fatal ("Expected 7 fields in job name " ++ name)) := by
          unfold newE2ETest
          rw [if_pos h7]
        simp [forEachJob, h3, he, hn, isFatal, -List.getD_eq_getElem?_getD]
      · by_cases hnn : (goSplit name '-').getD 2 "" = "e2enode"
        · have h6 : (goSplit name '-').length ≠ 6 := by
            rcases hc.2 with h | h
            · exact absurd hnn h
            · simpa using h
          have hn : newE2ENodeTest name job cfg =
              .error (.fatal ("Expected 6 fields in job name " ++ name)) := by
            unfold newE2ENodeTest
            rw [if_pos h6]
          simp [forEachJob, h3, he, hnn, hn, isFatal, -List.getD_eq_getElem?_getD]
        · simp [forEachJob, h3, he, hnn, isFatal, -List.getD_eq_getElem?_getD]
  · intro od name job cfg h7
    constructor
    · unfold newE2ETest
      rw [if_neg (by simp [h7])]
      split <;> rfl
    · intro h5
      unfold newE2ETest
      rw [if_neg (by simp [h7])]
      have hd : goDropStr ((goSplit name '-').getD 5 "") 3 =
          some ⟨((goSplit name '-').getD 5 "").data.drop 3⟩ := by
        unfold goDropStr
        rw [if_pos h5]
      rw [hd]
  · intro name job cfg h6
    constructor
    · unfold newE2ENodeTest
      rw [if_neg (by simp [h6])]
      split <;> rfl
    · intro h4
      unfold newE2ENodeTest
      rw [if_neg (by simp [h6])]
      have hd : goDropStr ((goSplit name '-').getD 4 "") 3 =
          some ⟨((goSplit name '-').getD 4 "").data.drop 3⟩ := by
        unfold goDropStr
        rw [if_pos h4]
      rw [hd]

/-- C9: a source job with neither Interval nor Cron makes `getProwConfig`
abort with the fatal missing-schedule error (for either kind); with at least
one of them set that error cannot occur, and every Periodic that is emitted
has exactly one of Interval/Cron non-empty. -/
theorem C9_schedule :
    (∀ (et : E2ETest) (ts : TestSuite), et.Job.Interval = "" → et.Job.Cron = "" →
      et.getProwConfig ts = .error (.fatal "No interval or cron definition found")) ∧
    (∀ (ent : E2ENodeTest) (ts : TestSuite) (k : NodeK8SVersion),
      ent.Job.Interval = "" → ent.Job.Cron = "" →
      ent.getProwConfig ts k = .error (.fatal "No interval or cron definition found")) ∧
    (∀ (et : E2ETest) (ts : TestSuite), et.Job.Interval ≠ "" ∨ et.Job.Cron ≠ "" →
      et.getProwConfig ts ≠ .error (.fatal "No interval or cron definition found")) ∧
    (∀ (ent : E2ENodeTest) (ts : TestSuite) (k : NodeK8SVersion),
      ent.Job.Interval ≠ "" ∨ ent.Job.Cron ≠ "" →
      ent.getProwConfig ts k ≠ .error (.fatal "No interval or cron definition found")) ∧
    (∀ (et : E2ETest) (ts : TestSuite) (p : Periodic), et.getProwConfig ts = .ok p →
      (p.Interval ≠ "" ∧ p.Cron = "") ∨ (p.Interval = "" ∧ p.Cron ≠ "")) ∧
    (∀ (ent : E2ENodeTest) (ts : TestSuite) (k : NodeK8SVersion) (p : Periodic),
      ent.getProwConfig ts k = .ok p →
      (p.Interval ≠ "" ∧ p.Cron = "") ∨ (p.Interval = "" ∧ p.Cron ≠ "")) ∧
    etC9.getProwConfig TestSuite.zero = .error (.fatal "No interval or cron definition found") := by
  refine ⟨?_, ?_, ?_, ?_, ?_, ?_, by decide⟩
  · intro et ts h1 h2
    unfold E2ETest.getProwConfig
    rw [withSchedule_err h1 h2]
  · intro ent ts k h1 h2
    unfold E2ENodeTest.getProwConfig
    rw [withSchedule_err h1 h2]
  · intro et ts hs hcon
    obtain ⟨q, hq⟩ := withSchedule_isOk (withClusterAndResources (baseProwConfig et.JobName) ts et.Job) hs
    unfold E2ETest.getProwConfig at hcon
    simp only [hq] at hcon
    have hsc := withTimeout_err hcon
    have := scanTimeout_fatal_msg hsc
    exact timeout_msg_ne_schedule et.JobName this.symm
  · intro ent ts k hs hcon
    obtain ⟨q, hq⟩ := withSchedule_isOk (withClusterAndResources (baseProwConfig ent.JobName) ts ent.Job) hs
    unfold E2ENodeTest.getProwConfig at hcon
    simp only [hq] at hcon
    rcases hwt : withTimeout q ent.JobName ts.Args with e | p2
    · rw [hwt] at hcon
      cases hcon
      have hsc := withTimeout_err hwt
      have := scanTimeout_fatal_msg hsc
      exact timeout_msg_ne_schedule ent.JobName this.symm
    · rw [hwt] at hcon
      cases hcon
  · intro et ts p hok
    unfold E2ETest.getProwConfig at hok
    rcases hws : withSchedule (withClusterAndResources (baseProwConfig et.JobName) ts et.Job) et.Job with e | q
    · rw [hws] at hok
      cases hok
    · rw [hws] at hok
      obtain ⟨-, hsch⟩ := withSchedule_ok hws
      obtain ⟨hI, hC, -⟩ := withTimeout_ok hok
      rcases hsch with ⟨h1, h2, h3⟩ | ⟨-, h1, h2, h3⟩
      · exact Or.inl ⟨by rw [hI, h1]; exact h2, by rw [hC]; exact h3⟩
      · exact Or.inr ⟨by rw [hI]; exact h1, by rw [hC, h2]; exact h3⟩
  · intro ent ts k p hok
    unfold E2ENodeTest.getProwConfig at hok
    rcases hws : withSchedule (withClusterAndResources (baseProwConfig ent.JobName) ts ent.Job) ent.Job with e | q
    · rw [hws] at hok
      cases hok
    · simp only [hws] at hok
      rcases hwt : withTimeout q ent.JobName ts.Args with e | p2
      · simp only [hwt] at hok
        cases hok
      · simp only [hwt, Except.ok.injEq] at hok
        subst hok
        obtain ⟨-, hsch⟩ := withSchedule_ok hws
        obtain ⟨hI2, hC2, -⟩ := withTimeout_ok hwt
        have hfin := nodeFinalizeProw_sched p2 k
        rcases hsch with ⟨h1, h2, h3⟩ | ⟨-, h1, h2, h3⟩
        · exact Or.inl ⟨by rw [hfin.1, hI2, h1]; exact h2, by rw [hfin.2.1, hC2]; exact h3⟩
        · exact Or.inr ⟨by rw [hfin.1, hI2]; exact h1, by rw [hfin.2.1, hC2, h2]; exact h3⟩

/-- C10: parsing is not total — a shape-conforming name whose k8s-version
token has fewer than 3 characters makes the prefix-stripping slice
(main.go lines 221 and 386) go out of range: the constructor panics, rather
than resolving a key or raising the documented fatal configuration error,
for both kinds. -/
theorem C10_parse_panics :
    conformsShape "a-b-e2e-cp-img-v1-suite" = true ∧
    newE2ETest "od" "a-b-e2e-cp-img-v1-suite" Job.zero ConfigFile.zero =
      .error (.panicked "slice bounds out of range") ∧
    isFatal (newE2ETest "od" "a-b-e2e-cp-img-v1-suite" Job.zero ConfigFile.zero) = false ∧
    conformsShape "a-b-e2enode-img-v1-suite" = true ∧
    newE2ENodeTest "a-b-e2enode-img-v1-suite" Job.zero ConfigFile.zero =
      .error (.panicked "slice bounds out of range") ∧
    isFatal (newE2ENodeTest "a-b-e2enode-img-v1-suite" Job.zero ConfigFile.zero) = false := by
  decide

end GenerateTests
